import Mathlib

/-!
Verification of the contact-form validation/submission core of the
little-lemon-booking portfolio repository.

The repository ships the test suite `ContactMeSection.test.js` for the
`ContactMeSection` component, but the component itself (and the
`useSubmit` / `alertContext` collaborators it consumes) is not among the
available source files.  The definitions below therefore embed the
component as described by the specification (sections 3-8 of `spec.md`):
form-field state, per-field validation rules with the literal error
strings, the submit protocol with its fixed endpoint, and the
response-driven reset/alert effect keyed on a change of the response
reference.  Each such definition carries a doc comment starting
`Modelled from the spec:`.
-/

namespace ContactForm

/-- Modelled from the spec: the names of the four form fields of the
missing `ContactMeSection` component. -/
inductive Field
  | firstName
  | email
  | type
  | comment
  deriving DecidableEq, Repr

/-- Modelled from the spec: `FormFields`, the record of the four field
values owned by the missing `ContactMeSection` component.  `type` holds
the selected enquiry option as a string. -/
structure FormFields where
  firstName : String
  email : String
  type : String
  comment : String
  deriving DecidableEq, Repr

/-- Modelled from the spec: the enumerated enquiry options for `type`. -/
def enquiryOptions : List String := ["hireMe", "openSource", "other"]

/-- Modelled from the spec: default field values on mount — `type`
defaults to a fixed option, the others default to the empty string. -/
def defaultFields : FormFields :=
  { firstName := "", email := "", type := "hireMe", comment := "" }

/-- Modelled from the spec: the literal error string "Required". -/
def requiredMsg : String := "Required"

/-- Modelled from the spec: the literal error string for a malformed
email address. -/
def invalidEmailMsg : String := "Invalid email address"

/-- Modelled from the spec: the literal error string for a too-short
comment. -/
def tooShortMsg : String := "Must be at least 25 characters"

/-- Split a list of characters at every occurrence of the separator. -/
def splitOnChar (c : Char) : List Char → List (List Char)
  | [] => [[]]
  | x :: xs =>
    match splitOnChar c xs with
    | [] => if x = c then [[], []] else [[x]]
    | y :: ys => if x = c then [] :: y :: ys else (x :: y) :: ys

/-- Modelled from the spec: the standard email-address pattern used by
the missing component, `local@domain` with a non-empty local part and a
domain made of at least two non-empty dot-separated labels. -/
def isValidEmail (s : String) : Bool :=
  match splitOnChar '@' s.toList with
  | [loc, dom] =>
    let labels := splitOnChar '.' dom
    decide (loc ≠ []) && decide (2 ≤ labels.length) &&
      labels.all (fun l => decide (l ≠ []))
  | _ => false

/-- Modelled from the spec: `firstName` is required. -/
def validateFirstName (s : String) : Option String :=
  if s = "" then some requiredMsg else none

/-- Modelled from the spec: `email` is required and, when non-empty,
must match the standard email-address pattern. -/
def validateEmail (s : String) : Option String :=
  if s = "" then some requiredMsg
  else if isValidEmail s then none
  else some invalidEmailMsg

/-- Modelled from the spec: `type` is a required selection among the
enumerated options. -/
def validateType (s : String) : Option String :=
  if enquiryOptions.contains s then none else some requiredMsg

/-- Modelled from the spec: `comment` is required and must be at least
25 characters long (inclusive). -/
def validateComment (s : String) : Option String :=
  if s = "" then some requiredMsg
  else if s.length < 25 then some tooShortMsg
  else none

/-- Modelled from the spec: `FieldError`, the mapping from field name to
an optional human-readable message. -/
structure FieldError where
  firstName : Option String
  email : Option String
  type : Option String
  comment : Option String
  deriving DecidableEq, Repr

/-- Modelled from the spec: the pure field-error computation
`validate(fields) -> FieldError`. -/
def validate (f : FormFields) : FieldError :=
  { firstName := validateFirstName f.firstName
    email := validateEmail f.email
    type := validateType f.type
    comment := validateComment f.comment }

/-- The message recorded for one field of a `FieldError`. -/
def FieldError.get (e : FieldError) : Field → Option String
  | Field.firstName => e.firstName
  | Field.email => e.email
  | Field.type => e.type
  | Field.comment => e.comment

/-- Whether any field of a `FieldError` carries a message. -/
def FieldError.hasError (e : FieldError) : Bool :=
  e.firstName.isSome || e.email.isSome || e.type.isSome || e.comment.isSome

/-- Modelled from the spec: every field passes validation. -/
def allValid (f : FormFields) : Bool := !(validate f).hasError

/-- Per-field touched flags. -/
structure Touched where
  firstName : Bool
  email : Bool
  type : Bool
  comment : Bool
  deriving DecidableEq, Repr

/-- No field touched yet. -/
def Touched.none : Touched :=
  { firstName := false, email := false, type := false, comment := false }

/-- Every field touched, as after a submit attempt. -/
def Touched.all : Touched :=
  { firstName := true, email := true, type := true, comment := true }

/-- The touched flag of one field. -/
def Touched.get (t : Touched) : Field → Bool
  | Field.firstName => t.firstName
  | Field.email => t.email
  | Field.type => t.type
  | Field.comment => t.comment

/-- Mark one field touched. -/
def Touched.mark (t : Touched) : Field → Touched
  | Field.firstName => { t with firstName := true }
  | Field.email => { t with email := true }
  | Field.type => { t with type := true }
  | Field.comment => { t with comment := true }

/-- Overwrite one field value. -/
def FormFields.set (f : FormFields) : Field → String → FormFields
  | Field.firstName, v => { f with firstName := v }
  | Field.email, v => { f with email := v }
  | Field.type, v => { f with type := v }
  | Field.comment, v => { f with comment := v }

/-- Response kind reported by the Submitter collaborator. -/
inductive RKind
  | success
  | error
  deriving DecidableEq, Repr

/-- Modelled from the spec: a settled response record of the Submitter. -/
structure ResponseRecord where
  kind : RKind
  message : String
  deriving DecidableEq, Repr

/-- Modelled from the spec: the observable state of the Submitter
collaborator, read (never written) by the form. -/
structure SubmitterState where
  isLoading : Bool
  response : Option ResponseRecord
  deriving DecidableEq, Repr

/-- Modelled from the spec: the state owned by the missing component —
field values, per-field touched flags, and the last response reference
seen by the watched-value comparison of the reset/alert effect. -/
structure FormState where
  fields : FormFields
  touched : Touched
  prevResponse : Option ResponseRecord
  deriving DecidableEq, Repr

/-- Modelled from the spec: component state on mount. -/
def initialState : FormState :=
  { fields := defaultFields, touched := Touched.none, prevResponse := none }

/-- User-input events handled synchronously by the component. -/
inductive Event
  | blur (f : Field)
  | change (f : Field) (v : String)
  | clickSubmit
  deriving DecidableEq, Repr

/-- Calls the component makes to its collaborators while handling one
event: `submit(endpoint, payload)` calls to the Submitter and
`onOpen(kind, message)` calls to the alert collaborator. -/
structure Outputs where
  submitCalls : List (String × FormFields)
  alertCalls : List (RKind × String)
  deriving DecidableEq, Repr

/-- No collaborator calls. -/
def Outputs.none : Outputs := { submitCalls := [], alertCalls := [] }

/-- Modelled from the spec: the fixed external URL passed as the first
argument of every `submit` call. -/
def endpoint : String := "https://john.com/contactme"

/-- Modelled from the spec: the synchronous event handler of the missing
component.  Blur marks the field touched; change overwrites the field
value; a submit click marks every field touched, validates all fields,
and forwards `submit(endpoint, fields)` exactly once if and only if
every field passes. -/
def handleEvent (st : FormState) : Event → FormState × Outputs
  | Event.blur f => ({ st with touched := st.touched.mark f }, Outputs.none)
  | Event.change f v => ({ st with fields := st.fields.set f v }, Outputs.none)
  | Event.clickSubmit =>
    let st2 := { st with touched := Touched.all }
    if allValid st.fields then
      (st2, { submitCalls := [(endpoint, st.fields)], alertCalls := [] })
    else
      (st2, Outputs.none)

/-- Modelled from the spec: the response-driven reset/alert effect of
the missing component, triggered by a change in the response reference
(watched-value comparison).  On a new settled response it resets the
fields to defaults when the kind is success, leaves them untouched when
the kind is error, and invokes the alert collaborator once with
`(kind, message)`. -/
def responseEffect (st : FormState) (sub : SubmitterState) : FormState × Outputs :=
  if sub.response = st.prevResponse then (st, Outputs.none)
  else
    match sub.response with
    | Option.none => ({ st with prevResponse := Option.none }, Outputs.none)
    | some r =>
      let fields := if r.kind = RKind.success then defaultFields else st.fields
      ({ st with fields := fields, prevResponse := some r },
       { submitCalls := [], alertCalls := [(r.kind, r.message)] })

/-- Modelled from the spec: the inline error rendered beneath one
control — present only when the field is touched and currently fails
its rule. -/
def displayedError (st : FormState) (f : Field) : Option String :=
  if st.touched.get f then (validate st.fields).get f else none

/-- The rendered submit control. -/
structure RenderedButton where
  label : String
  attrs : List String
  deriving DecidableEq, Repr

/-- Modelled from the spec: the rendered surface — labeled inputs with
their current values, inline error text per field, and a submit control
exposing a machine-readable `data-loading` attribute while the
Submitter reports `isLoading`. -/
structure Rendered where
  firstNameValue : String
  emailValue : String
  typeValue : String
  commentValue : String
  firstNameError : Option String
  emailError : Option String
  typeError : Option String
  commentError : Option String
  submitButton : RenderedButton
  deriving DecidableEq, Repr

/-- Modelled from the spec: the render function of the missing
component. -/
def render (st : FormState) (sub : SubmitterState) : Rendered :=
  { firstNameValue := st.fields.firstName
    emailValue := st.fields.email
    typeValue := st.fields.type
    commentValue := st.fields.comment
    firstNameError := displayedError st Field.firstName
    emailError := displayedError st Field.email
    typeError := displayedError st Field.type
    commentError := displayedError st Field.comment
    submitButton :=
      { label := "Submit"
        attrs := if sub.isLoading then ["data-loading"] else [] } }

/-- A fully valid sample input, as in the spec and the test suite. -/
def sampleValid : FormFields :=
  { firstName := "John Doe"
    email := "john.doe@example.com"
    type := "hireMe"
    comment := "This is a valid comment with more than 25 characters." }

theorem Touched.get_mark_self (t : Touched) (f : Field) :
    (t.mark f).get f = true := by
  cases f <;> rfl

theorem Touched.get_all (f : Field) : Touched.all.get f = true := by
  cases f <;> rfl

theorem handleEvent_clickSubmit_fst (st : FormState) :
    (handleEvent st Event.clickSubmit).1 = { st with touched := Touched.all } := by
  rcases Bool.eq_false_or_eq_true (allValid st.fields) with h | h <;>
    simp [handleEvent, h]

/-- Claim C1: whenever any field fails its validation rule, a submit
click forwards nothing to the Submitter; when every field passes, the
click forwards exactly one submit call. -/
theorem claim1_submit_gated (st : FormState) :
    ((validate st.fields).hasError = true →
      (handleEvent st Event.clickSubmit).2.submitCalls = []) ∧
    ((validate st.fields).hasError = false →
      (handleEvent st Event.clickSubmit).2.submitCalls = [(endpoint, st.fields)]) := by
  constructor
  · intro h
    simp [handleEvent, allValid, h, Outputs.none]
  · intro h
    simp [handleEvent, allValid, h]

/-- Witness for claim C1 at concrete inputs: the all-empty initial
fields block submission, and the fully valid sample is forwarded. -/
theorem claim1_submit_gated_spot :
    (handleEvent initialState Event.clickSubmit).2.submitCalls = [] ∧
    (handleEvent { initialState with fields := sampleValid }
        Event.clickSubmit).2.submitCalls = [(endpoint, sampleValid)] :=
  ⟨(claim1_submit_gated initialState).1 (by decide),
   (claim1_submit_gated { initialState with fields := sampleValid }).2 (by decide)⟩

/-- Claim C2: for fully valid fields, one submit click invokes the
Submitter exactly once, with the fixed endpoint as first argument and
the entered fields, unchanged, as payload — and no alert is raised. -/
theorem claim2_valid_submit (st : FormState) (h : allValid st.fields = true) :
    (handleEvent st Event.clickSubmit).2.submitCalls = [(endpoint, st.fields)] ∧
    (handleEvent st Event.clickSubmit).2.alertCalls = [] := by
  simp [handleEvent, h]

/-- Witness for claim C2 at the fully valid sample input. -/
theorem claim2_valid_submit_spot :
    (handleEvent { initialState with fields := sampleValid }
        Event.clickSubmit).2.submitCalls = [(endpoint, sampleValid)] ∧
    (handleEvent { initialState with fields := sampleValid }
        Event.clickSubmit).2.alertCalls = [] :=
  claim2_valid_submit { initialState with fields := sampleValid } (by decide)

/-- Claim C3: the email validation rule as a pure function of the value
— empty yields "Required", non-empty but not matching the email pattern
yields "Invalid email address" (for instance "invalidemail"), and a
well-formed address such as "test@example.com" yields no error. -/
theorem claim3_email_rules (s : String) :
    (s = "" → validateEmail s = some requiredMsg) ∧
    (s ≠ "" → isValidEmail s = false → validateEmail s = some invalidEmailMsg) ∧
    (isValidEmail s = true → validateEmail s = none) ∧
    validateEmail "invalidemail" = some invalidEmailMsg ∧
    validateEmail "test@example.com" = none := by
  refine ⟨?_, ?_, ?_, by decide, by decide⟩
  · intro h
    simp [validateEmail, h]
  · intro h hv
    simp [validateEmail, h, hv]
  · intro hv
    have h : s ≠ "" := by
      intro he
      rw [he] at hv
      exact absurd hv (by decide)
    simp [validateEmail, h, hv]

/-- Witness for claim C3 at concrete inputs. -/
theorem claim3_email_rules_spot :
    validateEmail "" = some requiredMsg ∧
    validateEmail "invalidemail" = some invalidEmailMsg ∧
    validateEmail "test@example.com" = none :=
  ⟨(claim3_email_rules "").1 rfl,
   (claim3_email_rules "invalidemail").2.1 (by decide) (by decide),
   (claim3_email_rules "test@example.com").2.2.1 (by decide)⟩

/-- Claim C4: the comment validation rule — empty yields "Required",
non-empty but shorter than 25 characters yields the length error, and
any comment of 25 or more characters (in particular an exactly
25-character one) yields no error. -/
theorem claim4_comment_rules (s : String) :
    (s = "" → validateComment s = some requiredMsg) ∧
    (s ≠ "" → s.length < 25 → validateComment s = some tooShortMsg) ∧
    (25 ≤ s.length → validateComment s = none) ∧
    validateComment "Hello my world" = some tooShortMsg ∧
    validateComment "1234567890123456789012345" = none := by
  refine ⟨?_, ?_, ?_, by decide, by decide⟩
  · intro h
    simp [validateComment, h]
  · intro h hl
    simp [validateComment, h, hl]
  · intro hl
    have h : s ≠ "" := by
      intro he
      rw [he] at hl
      exact absurd hl (by decide)
    simp [validateComment, h, Nat.not_lt.mpr hl]

/-- Witness for claim C4 at concrete inputs, with the 14-character and
25-character examples of the spec. -/
theorem claim4_comment_rules_spot :
    validateComment "" = some requiredMsg ∧
    validateComment "Hello my world" = some tooShortMsg ∧
    validateComment "1234567890123456789012345" = none :=
  ⟨(claim4_comment_rules "").1 rfl,
   (claim4_comment_rules "Hello my world").2.1 (by decide) (by decide),
   (claim4_comment_rules "1234567890123456789012345").2.2.1 (by decide)⟩

/-- Claim C5: when the Submitter settles with a success response not yet
seen, the effect resets every field to the defaults (the three text
fields read back as empty strings) and invokes the alert collaborator
with (success, message). -/
theorem claim5_success_resets (st : FormState) (sub : SubmitterState)
    (r : ResponseRecord) (hr : sub.response = some r)
    (hk : r.kind = RKind.success) (hnew : st.prevResponse ≠ some r) :
    (responseEffect st sub).1.fields = defaultFields ∧
    defaultFields.firstName = "" ∧ defaultFields.email = "" ∧
    defaultFields.comment = "" ∧
    (responseEffect st sub).2.alertCalls = [(RKind.success, r.message)] := by
  have hne : ¬ (some r = st.prevResponse) := fun h => hnew h.symm
  simp [responseEffect, hr, hne, hk, defaultFields]

/-- Witness for claim C5 at a concrete filled-in state receiving a fresh
success response. -/
theorem claim5_success_resets_spot :
    (responseEffect
        { fields := sampleValid, touched := Touched.all, prevResponse := none }
        { isLoading := false,
          response := some { kind := RKind.success, message := "ok" } }).1.fields
      = defaultFields ∧
    defaultFields.firstName = "" ∧ defaultFields.email = "" ∧
    defaultFields.comment = "" ∧
    (responseEffect
        { fields := sampleValid, touched := Touched.all, prevResponse := none }
        { isLoading := false,
          response := some { kind := RKind.success, message := "ok" } }).2.alertCalls
      = [(RKind.success, "ok")] :=
  claim5_success_resets
    { fields := sampleValid, touched := Touched.all, prevResponse := none }
    { isLoading := false,
      response := some { kind := RKind.success, message := "ok" } }
    { kind := RKind.success, message := "ok" } rfl rfl (by decide)

/-- Claim C6: when the Submitter settles with an error response not yet
seen, every field retains exactly its last entered value and the alert
collaborator is invoked with (error, message). -/
theorem claim6_error_preserves (st : FormState) (sub : SubmitterState)
    (r : ResponseRecord) (hr : sub.response = some r)
    (hk : r.kind = RKind.error) (hnew : st.prevResponse ≠ some r) :
    (responseEffect st sub).1.fields = st.fields ∧
    (responseEffect st sub).1.touched = st.touched ∧
    (responseEffect st sub).2.alertCalls = [(RKind.error, r.message)] := by
  have hne : ¬ (some r = st.prevResponse) := fun h => hnew h.symm
  simp [responseEffect, hr, hne, hk]

/-- Witness for claim C6 at a concrete filled-in state receiving a fresh
error response. -/
theorem claim6_error_preserves_spot :
    (responseEffect
        { fields := sampleValid, touched := Touched.all, prevResponse := none }
        { isLoading := false,
          response := some { kind := RKind.error, message := "bad" } }).1.fields
      = sampleValid ∧
    (responseEffect
        { fields := sampleValid, touched := Touched.all, prevResponse := none }
        { isLoading := false,
          response := some { kind := RKind.error, message := "bad" } }).1.touched
      = Touched.all ∧
    (responseEffect
        { fields := sampleValid, touched := Touched.all, prevResponse := none }
        { isLoading := false,
          response := some { kind := RKind.error, message := "bad" } }).2.alertCalls
      = [(RKind.error, "bad")] :=
  claim6_error_preserves
    { fields := sampleValid, touched := Touched.all, prevResponse := none }
    { isLoading := false,
      response := some { kind := RKind.error, message := "bad" } }
    { kind := RKind.error, message := "bad" } rfl rfl (by decide)

/-- Claim C7: the rendered submit control carries the data-loading
attribute exactly when the Submitter reports isLoading, whatever the
form state and whatever response (if any) has arrived. -/
theorem claim7_loading_attr (st : FormState) (sub : SubmitterState) :
    (render st sub).submitButton.attrs.contains "data-loading" = sub.isLoading := by
  cases h : sub.isLoading <;> simp [render, h]

theorem responseEffect_stable (st : FormState) (sub : SubmitterState)
    (h : sub.response = st.prevResponse) :
    responseEffect st sub = (st, Outputs.none) := by
  simp [responseEffect, h]

/-- Claim C8: a settled response not yet seen triggers exactly one alert
call with its kind and message, and re-running the effect on a
re-render with the same response reference changes nothing and raises
no duplicate alert. -/
theorem claim8_alert_once (st : FormState) (sub : SubmitterState)
    (r : ResponseRecord) (hr : sub.response = some r)
    (hnew : st.prevResponse ≠ some r) :
    (responseEffect st sub).2.alertCalls = [(r.kind, r.message)] ∧
    responseEffect (responseEffect st sub).1 sub
      = ((responseEffect st sub).1, Outputs.none) := by
  have hne : ¬ (some r = st.prevResponse) := fun h => hnew h.symm
  have hfst : (responseEffect st sub).1.prevResponse = some r := by
    simp [responseEffect, hr, hne]
  refine ⟨by simp [responseEffect, hr, hne], ?_⟩
  exact responseEffect_stable _ _ (by rw [hr, hfst])

/-- Witness for claim C8 at a concrete state: one alert on the fresh
response, none on the repeated render. -/
theorem claim8_alert_once_spot :
    (responseEffect
        { fields := sampleValid, touched := Touched.all, prevResponse := none }
        { isLoading := false,
          response := some { kind := RKind.success, message := "ok" } }).2.alertCalls
      = [(RKind.success, "ok")] ∧
    responseEffect
        (responseEffect
          { fields := sampleValid, touched := Touched.all, prevResponse := none }
          { isLoading := false,
            response := some { kind := RKind.success, message := "ok" } }).1
        { isLoading := false,
          response := some { kind := RKind.success, message := "ok" } }
      = ((responseEffect
          { fields := sampleValid, touched := Touched.all, prevResponse := none }
          { isLoading := false,
            response := some { kind := RKind.success, message := "ok" } }).1,
         Outputs.none) :=
  claim8_alert_once
    { fields := sampleValid, touched := Touched.all, prevResponse := none }
    { isLoading := false,
      response := some { kind := RKind.success, message := "ok" } }
    { kind := RKind.success, message := "ok" } rfl (by decide)

/-- Claim C9: blurring a field surfaces exactly that field's current
validation result, a submit click surfaces every field's validation
result simultaneously, and a field whose value satisfies its rule
displays no error. -/
theorem claim9_validation_display (st : FormState) (f : Field) :
    displayedError (handleEvent st (Event.blur f)).1 f
      = (validate st.fields).get f ∧
    (∀ g, displayedError (handleEvent st Event.clickSubmit).1 g
      = (validate st.fields).get g) ∧
    ((validate st.fields).get f = none → displayedError st f = none) := by
  refine ⟨?_, ?_, ?_⟩
  · simp [handleEvent, displayedError, Touched.get_mark_self]
  · intro g
    rw [handleEvent_clickSubmit_fst]
    simp [displayedError, Touched.get_all]
  · intro h
    cases ht : st.touched.get f <;> simp [displayedError, ht, h]

/-- Witness for claim C9 at a concrete state whose email satisfies its
rule. -/
theorem claim9_validation_display_spot :
    displayedError
        (handleEvent { initialState with fields := sampleValid }
          (Event.blur Field.email)).1 Field.email
      = (validate sampleValid).get Field.email ∧
    displayedError
        (handleEvent { initialState with fields := sampleValid }
          Event.clickSubmit).1 Field.comment
      = (validate sampleValid).get Field.comment ∧
    displayedError { initialState with fields := sampleValid } Field.email
      = none :=
  ⟨(claim9_validation_display { initialState with fields := sampleValid }
      Field.email).1,
   (claim9_validation_display { initialState with fields := sampleValid }
      Field.email).2.1 Field.comment,
   (claim9_validation_display { initialState with fields := sampleValid }
      Field.email).2.2 (by decide)⟩

/-- Claim C10: every submit call a click forwards carries the constant
endpoint string as its first argument, independent of the field
values. -/
theorem claim10_endpoint_fixed (st : FormState) (c : String × FormFields)
    (hc : c ∈ (handleEvent st Event.clickSubmit).2.submitCalls) :
    c.1 = "https://john.com/contactme" := by
  rcases Bool.eq_false_or_eq_true (allValid st.fields) with h | h <;>
    simp [handleEvent, h, Outputs.none] at hc
  rw [hc]
  rfl

/-- Witness for claim C10 at the fully valid sample input. -/
theorem claim10_endpoint_fixed_spot :
    ((endpoint, sampleValid) : String × FormFields).1
      = "https://john.com/contactme" :=
  claim10_endpoint_fixed { initialState with fields := sampleValid }
    (endpoint, sampleValid) (by decide)

end ContactForm
